import Mathlib

/-!
Verification of the conditional fund-transfer transaction in
`src/spanner_demo/snippets.py` (`read_write_transaction` and its transaction
body `update_albums`), against the repository's specification of the
FundTransferOperation.

The store is modelled as two tables keyed as in the DDL of `create_database`:
`Singers` keyed by `SingerId : INT64` and `Albums` keyed by
`(SingerId, AlbumId) : INT64 × INT64`.  The `MarketingBudget` column is
`INT64`; the transaction snippet presupposes that `update_data` has populated
it (its docstring says so), so it is modelled as an integer field of an album
row.  The transaction body is embedded as a pure function from the database
to an outcome, the post-state, and the chronological list of store operations
it issued (reads and staged writes), which lets the read-order and
zero-visible-writes claims be stated directly.
-/

/-- A key of the `Albums` table: `(SingerId, AlbumId)`, both `INT64`. -/
abbrev AlbumKey := Int × Int

/-- A row of the `Albums` table apart from its key: the `AlbumTitle` column
(nullable `STRING`) and the `MarketingBudget` column added by `add_column`. -/
structure AlbumRow where
  albumTitle : Option String
  marketingBudget : Int
deriving DecidableEq, Repr

/-- A row of the `Singers` table apart from its key: `FirstName`, `LastName`
(nullable strings) and `SingerInfo` (nullable bytes). -/
structure SingerRow where
  firstName : Option String
  lastName : Option String
  singerInfo : Option (List UInt8)
deriving DecidableEq, Repr

/-- The database state visible to one transaction attempt: the two tables
created by `create_database`, each a partial map from key to row. -/
structure Database where
  singers : Int → Option SingerRow
  albums : AlbumKey → Option AlbumRow

/-- Why a transaction attempt aborted, per the spec's error taxonomy.
`insufficientFunds` models the `ValueError` raised by `update_albums` (the
business-rule abort); `rowNotFound` models the failure of
`list(result)[0]` when the keyed read returns no row. -/
inductive AbortReason where
  | insufficientFunds
  | rowNotFound
deriving DecidableEq, Repr

/-- Outcome of one transaction attempt: `committed` carries the two new
balances (new source balance first, as printed by the code), `aborted` a
reason. -/
inductive TransactionOutcome where
  | committed (newSource newDestination : Int)
  | aborted (reason : AbortReason)
deriving DecidableEq, Repr

/-- A store operation issued by the transaction body, in program order:
a keyed single-row read, or the staged `update` of a list of
`(key, MarketingBudget)` values. -/
inductive Event where
  | readRow (table : String) (key : AlbumKey)
  | writeRows (table : String) (rows : List (AlbumKey × Int))
deriving DecidableEq, Repr

/-- The spec's `TransferRequest`: source row key, destination row key,
transfer amount and minimum-balance threshold. -/
structure TransferRequest where
  sourceKey : AlbumKey
  destKey : AlbumKey
  amount : Int
  threshold : Int
deriving DecidableEq, Repr

/-- The spec's `execute(store, request)`.  The body is a direct transcription
of `update_albums` in `src/spanner_demo/snippets.py`, with the code's fixed
keys `(2, 2)` / `(1, 1)`, amount `200000` and threshold `300000` generalized
to the request's fields; `update_albums` below is proved equal to this
operation at the code's fixed request.  Steps, in the code's order: read the
destination (second album) budget; if it is below the threshold, raise
(abort, rolling back); read the source (first album) budget; stage one
update of both rows; commit with the two new balances. -/
def execute (req : TransferRequest) (db : Database) :
    TransactionOutcome × Database × List Event :=
  match db.albums req.destKey with
  | none => (.aborted .rowNotFound, db, [.readRow "Albums" req.destKey])
  | some secondRow =>
    if secondRow.marketingBudget < req.threshold then
      (.aborted .insufficientFunds, db, [.readRow "Albums" req.destKey])
    else
      match db.albums req.sourceKey with
      | none =>
          (.aborted .rowNotFound, db,
           [.readRow "Albums" req.destKey, .readRow "Albums" req.sourceKey])
      | some firstRow =>
        let newSecond := secondRow.marketingBudget - req.amount
        let newFirst := firstRow.marketingBudget + req.amount
        (.committed newFirst newSecond,
         { db with albums := fun k =>
             if k = req.destKey then
               some { secondRow with marketingBudget := newSecond }
             else if k = req.sourceKey then
               some { firstRow with marketingBudget := newFirst }
             else db.albums k },
         [.readRow "Albums" req.destKey, .readRow "Albums" req.sourceKey,
          .writeRows "Albums" [(req.sourceKey, newFirst), (req.destKey, newSecond)]])

/-- The fixed transfer hard-coded in `update_albums`: credit Albums `(1, 1)`,
debit Albums `(2, 2)`, amount `200000`, threshold `300000`. -/
def codeRequest : TransferRequest :=
  { sourceKey := (1, 1), destKey := (2, 2), amount := 200000, threshold := 300000 }

/-- The transaction body `update_albums` of `src/spanner_demo/snippets.py`,
transcribed with its literal constants: read `MarketingBudget` of Albums
`(2, 2)`; if it is below `300000`, raise `ValueError` (modelled as the
`insufficientFunds` abort, rolling the transaction back); read
`MarketingBudget` of Albums `(1, 1)`; subtract `200000` from the second
album's budget, add `200000` to the first album's, and stage one update of
both rows' `MarketingBudget`. -/
def update_albums (db : Database) :
    TransactionOutcome × Database × List Event :=
  match db.albums (2, 2) with
  | none => (.aborted .rowNotFound, db, [.readRow "Albums" (2, 2)])
  | some secondRow =>
    if secondRow.marketingBudget < 300000 then
      (.aborted .insufficientFunds, db, [.readRow "Albums" (2, 2)])
    else
      match db.albums (1, 1) with
      | none =>
          (.aborted .rowNotFound, db,
           [.readRow "Albums" (2, 2), .readRow "Albums" (1, 1)])
      | some firstRow =>
        let newSecond := secondRow.marketingBudget - 200000
        let newFirst := firstRow.marketingBudget + 200000
        (.committed newFirst newSecond,
         { db with albums := fun k =>
             if k = (2, 2) then
               some { secondRow with marketingBudget := newSecond }
             else if k = (1, 1) then
               some { firstRow with marketingBudget := newFirst }
             else db.albums k },
         [.readRow "Albums" (2, 2), .readRow "Albums" (1, 1),
          .writeRows "Albums" [((1, 1), newFirst), ((2, 2), newSecond)]])

/-- The snippet `read_write_transaction` hands `update_albums` to the
library's `run_in_transaction`; the connection setup around it carries no
domain logic, so one attempt of the transaction is the body itself. -/
def read_write_transaction (db : Database) :
    TransactionOutcome × Database × List Event :=
  update_albums db

/-- The `Singers` rows inserted by `insert_data`. -/
def sampleSingers : Int → Option SingerRow := fun id =>
  if id = 1 then some { firstName := some "Marc", lastName := some "Richards", singerInfo := none }
  else if id = 2 then some { firstName := some "Catalina", lastName := some "Smith", singerInfo := none }
  else if id = 3 then some { firstName := some "Alice", lastName := some "Trentor", singerInfo := none }
  else if id = 4 then some { firstName := some "Lea", lastName := some "Martin", singerInfo := none }
  else if id = 5 then some { firstName := some "David", lastName := some "Lomond", singerInfo := none }
  else none

/-- The `Albums` table after `insert_data` and `update_data`, with the two
budgets set by `update_data` and the other rows' budgets left at zero. -/
def sampleAlbums : AlbumKey → Option AlbumRow := fun k =>
  if k = (1, 1) then some { albumTitle := some "Total Junk", marketingBudget := 100000 }
  else if k = (1, 2) then some { albumTitle := some "Go, Go, Go", marketingBudget := 0 }
  else if k = (2, 1) then some { albumTitle := some "Green", marketingBudget := 0 }
  else if k = (2, 2) then some { albumTitle := some "Forever Hold Your Peace", marketingBudget := 500000 }
  else if k = (2, 3) then some { albumTitle := some "Terrified", marketingBudget := 0 }
  else none

/-- The sample database of the snippets: source balance `100000` at `(1, 1)`,
destination balance `500000` at `(2, 2)`. -/
def sampleDB : Database :=
  { singers := sampleSingers, albums := sampleAlbums }

/-- The low-funds scenario database: destination balance `250000` at
`(2, 2)`, below the `300000` threshold. -/
def lowDB : Database :=
  { singers := sampleSingers
    albums := fun k =>
      if k = (1, 1) then some { albumTitle := some "Total Junk", marketingBudget := 100000 }
      else if k = (2, 2) then some { albumTitle := some "Forever Hold Your Peace", marketingBudget := 250000 }
      else none }

/-- A database in which the destination key `(2, 2)` resolves to no row. -/
def missingDestDB : Database :=
  { singers := sampleSingers
    albums := fun k =>
      if k = (1, 1) then some { albumTitle := some "Total Junk", marketingBudget := 100000 }
      else none }

/-- A second attempt's view of the store after a conflict: the same two
budgets as `sampleDB` but otherwise unrelated contents, used to check that
the outcome depends only on the two balances read. -/
def retryDB : Database :=
  { singers := fun _ => none
    albums := fun k =>
      if k = (1, 1) then some { albumTitle := none, marketingBudget := 100000 }
      else if k = (2, 2) then some { albumTitle := some "Green", marketingBudget := 500000 }
      else none }

/-- Whether an outcome is the `committed` variant. -/
def TransactionOutcome.isCommitted : TransactionOutcome → Bool
  | .committed _ _ => true
  | .aborted _ => false

/-- Whether a store operation stages writes. -/
def Event.isWrite : Event → Bool
  | .readRow _ _ => false
  | .writeRows _ _ => true

/-- Holds (as `true`) when a list of store operations stages no write. -/
def noStagedWrites (es : List Event) : Bool :=
  es.all fun e => ! e.isWrite

theorem update_albums_eq_execute (db : Database) :
    update_albums db = execute codeRequest db := rfl

theorem execute_dest_missing (req : TransferRequest) (db : Database)
    (hd : db.albums req.destKey = none) :
    execute req db = (.aborted .rowNotFound, db, [.readRow "Albums" req.destKey]) := by
  unfold execute
  rw [hd]

theorem execute_insufficient (req : TransferRequest) (db : Database)
    (destRow : AlbumRow) (hd : db.albums req.destKey = some destRow)
    (hlt : destRow.marketingBudget < req.threshold) :
    execute req db = (.aborted .insufficientFunds, db, [.readRow "Albums" req.destKey]) := by
  unfold execute
  rw [hd]
  simp [hlt]

theorem execute_src_missing (req : TransferRequest) (db : Database)
    (destRow : AlbumRow) (hd : db.albums req.destKey = some destRow)
    (hge : ¬ destRow.marketingBudget < req.threshold)
    (hs : db.albums req.sourceKey = none) :
    execute req db =
      (.aborted .rowNotFound, db,
       [.readRow "Albums" req.destKey, .readRow "Albums" req.sourceKey]) := by
  unfold execute
  rw [hd]
  simp only [hge, if_false, ite_false]
  rw [hs]

theorem execute_commit (req : TransferRequest) (db : Database)
    (srcRow destRow : AlbumRow)
    (hs : db.albums req.sourceKey = some srcRow)
    (hd : db.albums req.destKey = some destRow)
    (hge : ¬ destRow.marketingBudget < req.threshold) :
    execute req db =
      (.committed (srcRow.marketingBudget + req.amount)
                  (destRow.marketingBudget - req.amount),
       { db with albums := fun k =>
           if k = req.destKey then
             some { destRow with marketingBudget := destRow.marketingBudget - req.amount }
           else if k = req.sourceKey then
             some { srcRow with marketingBudget := srcRow.marketingBudget + req.amount }
           else db.albums k },
       [.readRow "Albums" req.destKey, .readRow "Albums" req.sourceKey,
        .writeRows "Albums"
          [(req.sourceKey, srcRow.marketingBudget + req.amount),
           (req.destKey, destRow.marketingBudget - req.amount)]]) := by
  unfold execute
  rw [hd]
  simp only [hge, if_false, ite_false]
  rw [hs]

/-- C1: for every valid request whose destination row's balance is at least
the threshold, `execute` returns `Committed` with the new source balance
equal to the old source balance plus the amount and the new destination
balance equal to the old destination balance minus the amount; and in the
code's fixed instance (source `(1, 1)` at `100000`, destination `(2, 2)` at
`500000`, amount `200000`, threshold `300000`) the outcome is
`Committed(300000, 300000)`. -/
theorem C1_committed_balances (req : TransferRequest) (db : Database)
    (srcRow destRow : AlbumRow)
    (hs : db.albums req.sourceKey = some srcRow)
    (hd : db.albums req.destKey = some destRow)
    (hth : req.threshold ≤ destRow.marketingBudget) :
    (execute req db).1 =
      .committed (srcRow.marketingBudget + req.amount)
                 (destRow.marketingBudget - req.amount)
    ∧ (update_albums sampleDB).1 = .committed 300000 300000 := by
  refine ⟨?_, by decide⟩
  rw [execute_commit req db srcRow destRow hs hd (not_lt.mpr hth)]

theorem C1_committed_balances_witness :
    (execute codeRequest sampleDB).1 =
      .committed ((100000 : Int) + 200000) ((500000 : Int) - 200000)
    ∧ (update_albums sampleDB).1 = .committed 300000 300000 :=
  C1_committed_balances codeRequest sampleDB
    { albumTitle := some "Total Junk", marketingBudget := 100000 }
    { albumTitle := some "Forever Hold Your Peace", marketingBudget := 500000 }
    (by decide) (by decide) (by decide)

/-- C2: for every request whose destination key resolves to a row, the
outcome is `Aborted(InsufficientFunds)` exactly when that row's balance is
strictly below the threshold, and in that case the store is unchanged; in
the concrete low-funds scenario (balances `100000` / `250000`, threshold
`300000`) the outcome is `Aborted(InsufficientFunds)` and both balances are
still `100000` and `250000` afterwards. -/
theorem C2_insufficient_funds_iff (req : TransferRequest) (db : Database)
    (destRow : AlbumRow) (hd : db.albums req.destKey = some destRow) :
    ((execute req db).1 = .aborted .insufficientFunds
        ↔ destRow.marketingBudget < req.threshold)
    ∧ (destRow.marketingBudget < req.threshold → (execute req db).2.1 = db)
    ∧ (update_albums lowDB).1 = .aborted .insufficientFunds
    ∧ ((update_albums lowDB).2.1.albums (1, 1)).map AlbumRow.marketingBudget
        = some 100000
    ∧ ((update_albums lowDB).2.1.albums (2, 2)).map AlbumRow.marketingBudget
        = some 250000 := by
  refine ⟨⟨?_, ?_⟩, ?_, by decide, by decide, by decide⟩
  · intro h
    by_contra hge
    rcases hcase : db.albums req.sourceKey with _ | srcRow
    · rw [execute_src_missing req db destRow hd hge hcase] at h
      simp at h
    · rw [execute_commit req db srcRow destRow hcase hd hge] at h
      simp at h
  · intro hlt
    rw [execute_insufficient req db destRow hd hlt]
  · intro hlt
    rw [execute_insufficient req db destRow hd hlt]

theorem C2_insufficient_funds_iff_witness :
    (execute codeRequest lowDB).1 = .aborted .insufficientFunds
    ∧ (execute codeRequest lowDB).2.1 = lowDB
    ∧ ((update_albums lowDB).2.1.albums (1, 1)).map AlbumRow.marketingBudget
        = some 100000
    ∧ ((update_albums lowDB).2.1.albums (2, 2)).map AlbumRow.marketingBudget
        = some 250000 := by
  have h := C2_insufficient_funds_iff codeRequest lowDB
    { albumTitle := some "Forever Hold Your Peace", marketingBudget := 250000 }
    (by decide)
  exact ⟨h.1.mpr (by decide), h.2.1 (by decide), h.2.2.2.1, h.2.2.2.2⟩

/-- C3: conservation law — whenever `execute` commits, the sum of the two
new balances it returns equals the sum of the two old balances it read. -/
theorem C3_conservation (req : TransferRequest) (db : Database)
    (srcRow destRow : AlbumRow) (newS newD : Int)
    (hs : db.albums req.sourceKey = some srcRow)
    (hd : db.albums req.destKey = some destRow)
    (hc : (execute req db).1 = .committed newS newD) :
    newS + newD = srcRow.marketingBudget + destRow.marketingBudget := by
  by_cases hlt : destRow.marketingBudget < req.threshold
  · rw [execute_insufficient req db destRow hd hlt] at hc
    simp at hc
  · rw [execute_commit req db srcRow destRow hs hd hlt] at hc
    simp only [TransactionOutcome.committed.injEq] at hc
    obtain ⟨h1, h2⟩ := hc
    omega

theorem C3_conservation_witness :
    (300000 : Int) + 300000 = 100000 + 500000 :=
  C3_conservation codeRequest sampleDB
    { albumTitle := some "Total Junk", marketingBudget := 100000 }
    { albumTitle := some "Forever Hold Your Peace", marketingBudget := 500000 }
    300000 300000 (by decide) (by decide) (by decide)

/-- C4: atomicity of aborts — on every run of `execute` whose outcome is not
`Committed`, the post-state equals the pre-state and no write was staged
among the issued store operations. -/
theorem C4_abort_atomicity (req : TransferRequest) (db : Database)
    (h : (execute req db).1.isCommitted = false) :
    (execute req db).2.1 = db
    ∧ noStagedWrites (execute req db).2.2 = true := by
  rcases hd : db.albums req.destKey with _ | destRow
  · rw [execute_dest_missing req db hd]
    exact ⟨rfl, rfl⟩
  · by_cases hlt : destRow.marketingBudget < req.threshold
    · rw [execute_insufficient req db destRow hd hlt]
      exact ⟨rfl, rfl⟩
    · rcases hs : db.albums req.sourceKey with _ | srcRow
      · rw [execute_src_missing req db destRow hd hlt hs]
        exact ⟨rfl, rfl⟩
      · rw [execute_commit req db srcRow destRow hs hd hlt] at h
        simp [TransactionOutcome.isCommitted] at h

theorem C4_abort_atomicity_witness :
    (execute codeRequest lowDB).2.1 = lowDB
    ∧ noStagedWrites (execute codeRequest lowDB).2.2 = true :=
  C4_abort_atomicity codeRequest lowDB (by decide)

/-- C5: for every request whose destination key resolves to no row, `execute`
returns the `RowNotFound` abort to the caller, the store is unchanged, and no
write was staged. -/
theorem C5_dest_not_found (req : TransferRequest) (db : Database)
    (hd : db.albums req.destKey = none) :
    (execute req db).1 = .aborted .rowNotFound
    ∧ (execute req db).2.1 = db
    ∧ noStagedWrites (execute req db).2.2 = true := by
  rw [execute_dest_missing req db hd]
  exact ⟨rfl, rfl, rfl⟩

theorem C5_dest_not_found_witness :
    (execute codeRequest missingDestDB).1 = .aborted .rowNotFound
    ∧ (execute codeRequest missingDestDB).2.1 = missingDestDB
    ∧ noStagedWrites (execute codeRequest missingDestDB).2.2 = true :=
  C5_dest_not_found codeRequest missingDestDB (by decide)

/-- C6: with the code's constants (threshold `300000` at least the amount
`200000`), any committed run of `update_albums` started from non-negative
balances returns two non-negative balances, and the two stored
`MarketingBudget` values afterwards are exactly those non-negative
balances. -/
theorem C6_nonneg_after_commit (db : Database)
    (srcRow destRow : AlbumRow) (newS newD : Int)
    (hs : db.albums (1, 1) = some srcRow)
    (hd : db.albums (2, 2) = some destRow)
    (h1 : 0 ≤ srcRow.marketingBudget) (h2 : 0 ≤ destRow.marketingBudget)
    (hc : (update_albums db).1 = .committed newS newD) :
    (0 ≤ newS ∧ 0 ≤ newD)
    ∧ ((update_albums db).2.1.albums (1, 1)).map AlbumRow.marketingBudget = some newS
    ∧ ((update_albums db).2.1.albums (2, 2)).map AlbumRow.marketingBudget = some newD := by
  rw [update_albums_eq_execute] at hc ⊢
  by_cases hlt : destRow.marketingBudget < (300000 : Int)
  · rw [execute_insufficient codeRequest db destRow hd hlt] at hc
    simp at hc
  · rw [execute_commit codeRequest db srcRow destRow hs hd hlt] at hc
    simp only [TransactionOutcome.committed.injEq] at hc
    obtain ⟨hA, hB⟩ := hc
    subst hA
    subst hB
    rw [execute_commit codeRequest db srcRow destRow hs hd hlt]
    refine ⟨⟨?_, ?_⟩, ?_, ?_⟩
    · simp only [codeRequest]
      omega
    · simp only [codeRequest] at hlt ⊢
      omega
    · dsimp only
      rw [if_neg (show (((1 : Int), (1 : Int)) : AlbumKey) ≠ codeRequest.destKey by decide),
          if_pos (show (((1 : Int), (1 : Int)) : AlbumKey) = codeRequest.sourceKey by decide)]
      rfl
    · dsimp only
      rw [if_pos (show (((2 : Int), (2 : Int)) : AlbumKey) = codeRequest.destKey by decide)]
      rfl

theorem C6_nonneg_after_commit_witness :
    ((0 : Int) ≤ 300000 ∧ (0 : Int) ≤ 300000)
    ∧ ((update_albums sampleDB).2.1.albums (1, 1)).map AlbumRow.marketingBudget
        = some 300000
    ∧ ((update_albums sampleDB).2.1.albums (2, 2)).map AlbumRow.marketingBudget
        = some 300000 :=
  C6_nonneg_after_commit sampleDB
    { albumTitle := some "Total Junk", marketingBudget := 100000 }
    { albumTitle := some "Forever Hold Your Peace", marketingBudget := 500000 }
    300000 300000 (by decide) (by decide) (by decide) (by decide) (by decide)

/-- C7: on every run of `update_albums`, the first store operation is the
read of the destination row `(2, 2)`; on the `InsufficientFunds` path that
read is the only store operation (so the source row is never read there);
and the source row `(1, 1)` is read only when the destination row exists and
its balance passed the threshold check. -/
theorem C7_read_order (db : Database) :
    (∃ rest, (update_albums db).2.2 = Event.readRow "Albums" (2, 2) :: rest)
    ∧ ((update_albums db).1 = .aborted .insufficientFunds →
        (update_albums db).2.2 = [Event.readRow "Albums" (2, 2)])
    ∧ (Event.readRow "Albums" (1, 1) ∈ (update_albums db).2.2 →
        ∃ destRow, db.albums (2, 2) = some destRow
          ∧ ¬ destRow.marketingBudget < 300000) := by
  rw [update_albums_eq_execute]
  rcases hd : db.albums (2, 2) with _ | destRow
  · rw [execute_dest_missing codeRequest db hd]
    refine ⟨⟨[], rfl⟩, fun _ => rfl, fun hmem => ?_⟩
    dsimp only at hmem
    exact absurd hmem (by decide)
  · by_cases hlt : destRow.marketingBudget < (300000 : Int)
    · rw [execute_insufficient codeRequest db destRow hd hlt]
      refine ⟨⟨[], rfl⟩, fun _ => rfl, fun hmem => ?_⟩
      dsimp only at hmem
      exact absurd hmem (by decide)
    · rcases hsrc : db.albums (1, 1) with _ | srcRow
      · rw [execute_src_missing codeRequest db destRow hd hlt hsrc]
        refine ⟨⟨[Event.readRow "Albums" (1, 1)], rfl⟩, fun h => ?_, fun _ => ⟨destRow, rfl, hlt⟩⟩
        simp at h
      · rw [execute_commit codeRequest db srcRow destRow hsrc hd hlt]
        refine ⟨⟨_, rfl⟩, fun h => ?_, fun _ => ⟨destRow, rfl, hlt⟩⟩
        simp at h

/-- C8: the outcome and the staged writes are a pure function of the two
balances read at attempt time — two runs of `execute` for the same request
against stores agreeing on the source and destination rows' balances produce
the same outcome and the same list of store operations, so a retry with
freshly re-read balances is safe. -/
theorem C8_pure_in_read_balances (req : TransferRequest) (db1 db2 : Database)
    (hsrc : (db1.albums req.sourceKey).map AlbumRow.marketingBudget
          = (db2.albums req.sourceKey).map AlbumRow.marketingBudget)
    (hdst : (db1.albums req.destKey).map AlbumRow.marketingBudget
          = (db2.albums req.destKey).map AlbumRow.marketingBudget) :
    (execute req db1).1 = (execute req db2).1
    ∧ (execute req db1).2.2 = (execute req db2).2.2 := by
  rcases h1 : db1.albums req.destKey with _ | d1
  · rcases h2 : db2.albums req.destKey with _ | d2
    · rw [execute_dest_missing req db1 h1, execute_dest_missing req db2 h2]
      exact ⟨rfl, rfl⟩
    · rw [h1, h2] at hdst
      simp at hdst
  · rcases h2 : db2.albums req.destKey with _ | d2
    · rw [h1, h2] at hdst
      simp at hdst
    · rw [h1, h2] at hdst
      simp only [Option.map_some', Option.some.injEq] at hdst
      by_cases hlt : d1.marketingBudget < req.threshold
      · have hlt2 : d2.marketingBudget < req.threshold := by rw [← hdst]; exact hlt
        rw [execute_insufficient req db1 d1 h1 hlt, execute_insufficient req db2 d2 h2 hlt2]
        exact ⟨rfl, rfl⟩
      · have hge2 : ¬ d2.marketingBudget < req.threshold := by rw [← hdst]; exact hlt
        rcases s1 : db1.albums req.sourceKey with _ | r1
        · rcases s2 : db2.albums req.sourceKey with _ | r2
          · rw [execute_src_missing req db1 d1 h1 hlt s1,
                execute_src_missing req db2 d2 h2 hge2 s2]
            exact ⟨rfl, rfl⟩
          · rw [s1, s2] at hsrc
            simp at hsrc
        · rcases s2 : db2.albums req.sourceKey with _ | r2
          · rw [s1, s2] at hsrc
            simp at hsrc
          · rw [s1, s2] at hsrc
            simp only [Option.map_some', Option.some.injEq] at hsrc
            rw [execute_commit req db1 r1 d1 s1 h1 hlt,
                execute_commit req db2 r2 d2 s2 h2 hge2]
            exact ⟨by simp [hsrc, hdst], by simp [hsrc, hdst]⟩

theorem C8_pure_in_read_balances_witness :
    (execute codeRequest sampleDB).1 = (execute codeRequest retryDB).1
    ∧ (execute codeRequest sampleDB).2.2 = (execute codeRequest retryDB).2.2 :=
  C8_pure_in_read_balances codeRequest sampleDB retryDB (by decide) (by decide)

/-- C9: `read_write_transaction` takes no `TransferRequest`; on every store
its transaction body behaves exactly as the spec's operation at the one
hard-coded request, whose source key is `(1, 1)`, destination key `(2, 2)`,
amount `200000` and threshold `300000`. -/
theorem C9_fixed_request :
    (∀ db, read_write_transaction db = execute codeRequest db)
    ∧ codeRequest.sourceKey = (1, 1) ∧ codeRequest.destKey = (2, 2)
    ∧ codeRequest.amount = 200000 ∧ codeRequest.threshold = 300000 :=
  ⟨fun db => update_albums_eq_execute db, rfl, rfl, rfl, rfl⟩

/-- C10: frame — when `read_write_transaction` commits, the `Singers` table
is untouched, every `Albums` row other than `(1, 1)` and `(2, 2)` is
untouched, and on those two rows the `AlbumTitle` column is untouched (only
`MarketingBudget` changes). -/
theorem C10_commit_frame (db : Database) (newS newD : Int)
    (hc : (read_write_transaction db).1 = .committed newS newD) :
    (read_write_transaction db).2.1.singers = db.singers
    ∧ (∀ k : AlbumKey, k ≠ (1, 1) → k ≠ (2, 2) →
        (read_write_transaction db).2.1.albums k = db.albums k)
    ∧ ((read_write_transaction db).2.1.albums (1, 1)).map AlbumRow.albumTitle
        = (db.albums (1, 1)).map AlbumRow.albumTitle
    ∧ ((read_write_transaction db).2.1.albums (2, 2)).map AlbumRow.albumTitle
        = (db.albums (2, 2)).map AlbumRow.albumTitle := by
  unfold read_write_transaction at hc ⊢
  rw [update_albums_eq_execute] at hc ⊢
  rcases hd : db.albums (2, 2) with _ | destRow
  · rw [execute_dest_missing codeRequest db hd]
    refine ⟨rfl, fun _ _ _ => rfl, rfl, ?_⟩
    dsimp only
    rw [hd]
  · by_cases hlt : destRow.marketingBudget < (300000 : Int)
    · rw [execute_insufficient codeRequest db destRow hd hlt]
      refine ⟨rfl, fun _ _ _ => rfl, rfl, ?_⟩
      dsimp only
      rw [hd]
    · rcases hsrc : db.albums (1, 1) with _ | srcRow
      · rw [execute_src_missing codeRequest db destRow hd hlt hsrc]
        refine ⟨rfl, fun _ _ _ => rfl, ?_, ?_⟩
        · dsimp only
          rw [hsrc]
        · dsimp only
          rw [hd]
      · rw [execute_commit codeRequest db srcRow destRow hsrc hd hlt]
        refine ⟨rfl, fun k hk1 hk2 => ?_, ?_, ?_⟩
        · dsimp only
          rw [if_neg (show ¬ k = codeRequest.destKey from fun h => hk2 h),
              if_neg (show ¬ k = codeRequest.sourceKey from fun h => hk1 h)]
        · dsimp only
          rw [if_neg (show (((1 : Int), (1 : Int)) : AlbumKey) ≠ codeRequest.destKey by decide),
              if_pos (show (((1 : Int), (1 : Int)) : AlbumKey) = codeRequest.sourceKey by decide)]
          rfl
        · dsimp only
          rw [if_pos (show (((2 : Int), (2 : Int)) : AlbumKey) = codeRequest.destKey by decide)]
          rfl

theorem C10_commit_frame_witness :
    (read_write_transaction sampleDB).2.1.singers = sampleDB.singers
    ∧ (read_write_transaction sampleDB).2.1.albums (2, 3) = sampleDB.albums (2, 3)
    ∧ ((read_write_transaction sampleDB).2.1.albums (1, 1)).map AlbumRow.albumTitle
        = (sampleDB.albums (1, 1)).map AlbumRow.albumTitle
    ∧ ((read_write_transaction sampleDB).2.1.albums (2, 2)).map AlbumRow.albumTitle
        = (sampleDB.albums (2, 2)).map AlbumRow.albumTitle := by
  have h := C10_commit_frame sampleDB 300000 300000 (by decide)
  exact ⟨h.1, h.2.1 (2, 3) (by decide) (by decide), h.2.2.1, h.2.2.2⟩
